import Mathlib

/-!
Shallow embedding of `src/sync_upstream.py`, the SRA-CE upstream
synchronization tool, together with proofs about its exclusion rules,
change-set resolution, merge protection and interactive workflow.

Conventions used throughout:
* Python strings are Lean `String`s; console output and executed shell
  commands are recorded as `Ev` events.
* `env : Env` models the version-control backend: `env.run c` yields the
  pair (stripped stdout, exit code) that `run_cmd c` observes.
* Interactive stdin is a finite script `List String`; reading past its
  end ends the modelled run (the real program would block on `input()`).
* Color codes, the decorative bar frames printed by
  `_print_section_header`, and `input()` prompt texts are presentation
  only and are not recorded as events.
-/

namespace SyncUpstream

/-- Split a character list at every occurrence of `c`, mirroring Python
`str.split(c)`: the empty string splits to `[""]`. -/
def split_on_char (c : Char) : List Char → List (List Char)
  | [] => [[]]
  | x :: xs =>
    match split_on_char c xs with
    | [] => if x = c then [[], []] else [[x]]
    | y :: ys => if x = c then [] :: y :: ys else (x :: y) :: ys

/-- Drop the characters of `bad` from the front of a list (Python `str.lstrip`). -/
def ltrim (bad : List Char) (cs : List Char) : List Char :=
  cs.dropWhile (fun c => bad.contains c)

/-- Drop the characters of `bad` from the back of a list (Python `str.rstrip`). -/
def rtrim (bad : List Char) (cs : List Char) : List Char :=
  (ltrim bad cs.reverse).reverse

/-- Drop the characters of `bad` from both ends (Python `str.strip(bad)`). -/
def strip_set (bad : List Char) (cs : List Char) : List Char :=
  rtrim bad (ltrim bad cs)

/-- The whitespace characters stripped by a bare Python `str.strip()`
(the ASCII ones; the inputs handled by the tool contain no exotic
Unicode whitespace). -/
def ws_chars : List Char := [' ', '\t', '\n', '\r', '\u000B', '\u000C']

/-- Python `s.strip()` on a Lean string. -/
def strip_ws (s : String) : String :=
  String.mk (strip_set ws_chars s.toList)

/-- Python `s.lower()` (the inputs compared by the tool are ASCII). -/
def py_lower (s : String) : String :=
  String.mk (s.toList.map Char.toLower)

/-- Python `s.split(sep)` for a one-character separator, as strings. -/
def py_split (sep : Char) (s : String) : List String :=
  (split_on_char sep s.toList).map String.mk

/-- Replace every occurrence of the two-character sequence `\.` by `.`,
mirroring the Python `pattern.replace(r'\.', '.')` used on the fixed
exclusion patterns. -/
def replace_esc : List Char → List Char
  | [] => []
  | '\\' :: '.' :: rest => '.' :: replace_esc rest
  | c :: rest => c :: replace_esc rest

/-- Python `', '.join l`-style joining. -/
def join_sep (sep : String) : List String → String
  | [] => ""
  | [x] => x
  | x :: xs => x ++ sep ++ join_sep sep xs

/-- Concatenate a list of strings (Python `''.join` / repeated `+=`). -/
def concat_all (l : List String) : String :=
  l.foldl (fun a b => a ++ b) ""

/-- Substring test (Python `needle in haystack`). -/
def is_sub (needle : List Char) : List Char → Bool
  | [] => needle.isEmpty
  | c :: rest => needle.isPrefixOf (c :: rest) || is_sub needle rest

/-- Literal two-dash sequence used when assembling git command lines. -/
def dd : String := "-" ++ "-"

/-- The fixed exclusion patterns of `UpstreamSync.__init__`
(src/sync_upstream.py lines 111-119), kept as their literal Python
regular-expression sources. -/
def excluded_patterns : List String :=
  ["^\\.github/", "^SRAFrontend/", "^setup/", "^README\\.md$",
   "^package\\.py$", "^\\.gitignore$", "^\\.gitattributes$"]

/-- Python `re.match pattern path` restricted to the pattern language
that `excluded_patterns` uses: an optional leading `^` (redundant under
`re.match`, which anchors at the start), literal characters with `\.`
escapes, and either a trailing `/` (so the regex matches any string
beginning with the literal) or a trailing `$`.  Python's `$` matches at
the end of the string or just before a newline that ends the string. -/
def re_match (pattern path : String) : Bool :=
  let cs := pattern.toList
  let cs := if cs.head? = some '^' then cs.drop 1 else cs
  if cs.getLast? = some '$' then
    let lit := replace_esc cs.dropLast
    path.toList == lit || path.toList == lit ++ ['\n']
  else
    (replace_esc cs).isPrefixOf path.toList

/-- A path is excluded when some pattern matches it.  This is the inner
loop of `get_changed_files` (src/sync_upstream.py lines 232-241), which
the specification calls `is_excluded`. -/
def is_excluded (path : String) : Bool :=
  excluded_patterns.any (fun p => re_match p path)

/-- Parse the stdout of a `--name-only` diff into the backend's reported
path list: `[f.strip() for f in output.split('\n') if f.strip()]`. -/
def parse_diff_output (output : String) : List String :=
  ((py_split '\n' output).map strip_ws).filter (fun f => f ≠ "")

/-- `UpstreamSync.get_changed_files` (src/sync_upstream.py lines
221-243) applied to the diff command's stdout: the backend's reported
list filtered through the exclusion patterns, order preserved. -/
def get_changed_files (output : String) : List String :=
  if output = "" then []
  else (parse_diff_output output).filter (fun f => !(is_excluded f))

/-- The source reads the diff result as `output, _ = self.run_cmd(cmd)`,
discarding the exit code; this wrapper records that signature. -/
def get_changed_files_r (r : String × Int) : List String :=
  get_changed_files r.1

example : is_excluded "setup/x.txt" = true := by decide
example : is_excluded "setup2/x.txt" = false := by decide
example : is_excluded "README.md" = true := by decide
example : is_excluded ("README.md" ++ "\n") = true := by decide
example : is_excluded "README.md.bak" = false := by decide
example : is_excluded ".github/workflows/ci.yml" = true := by decide
example : get_changed_files "src/a.txt\n.github/workflows/ci.yml\nREADME.md" = ["src/a.txt"] := by decide

/-- An observable step of the tool: a shell command handed to the
backend via `run_cmd` (or `subprocess.run`), or a console message
printed with `print` (color codes and decorative framing omitted). -/
inductive Ev where
  | cmd (s : String)
  | msg (s : String)
deriving DecidableEq

/-- Whether an event is a backend command. -/
def Ev.isCmd : Ev → Bool
  | Ev.cmd _ => true
  | Ev.msg _ => false

/-- The regex-to-git-path conversion `pattern.strip('^$').replace(r'\.', '.')`
used by `_setup_merge_protection` and `apply_all_changes`
(src/sync_upstream.py lines 185 and 342). -/
def clean_pattern (p : String) : String :=
  String.mk (replace_esc (strip_set ['^', '$'] p.toList))

/-- The path handed to `git checkout HEAD --` for a pattern in
`apply_all_changes` (lines 341-347): the cleaned pattern, with all
trailing slashes removed when it denotes a directory. -/
def checkout_target (p : String) : String :=
  let c := clean_pattern p
  if c.toList.getLast? = some '/' then String.mk (rtrim ['/'] c.toList) else c

/-- One line of the generated `.gitattributes` (lines 183-189): cleaned
pattern, with `*` appended for directory patterns, then ` merge=ours`. -/
def gitattributes_line (p : String) : String :=
  let c := clean_pattern p
  if c.toList.getLast? = some '/' then c ++ "* merge=ours\n" else c ++ " merge=ours\n"

/-- The full content `_setup_merge_protection` writes on first run. -/
def gitattributes_content : String :=
  "# 合并保护配置\n" ++ concat_all (excluded_patterns.map gitattributes_line)

/-- The backend-global option registration command (line 195). -/
def config_cmd : String := "git config merge.ours.driver true"

/-- `UpstreamSync._setup_merge_protection` (lines 176-198).  The
filesystem is the optional current content of `.gitattributes`;
`write_err = some e` models `write_text` raising an exception with
message `e`, which the `except` clause turns into a warning (skipping
the `git config` call that follows the write in the `try` block).
Returns the new `.gitattributes` content and the emitted events. -/
def setup_merge_protection (fs : Option String) (write_err : Option String) :
    Option String × List Ev :=
  match fs with
  | some c => (some c, [Ev.cmd config_cmd])
  | none =>
    match write_err with
    | none => (some gitattributes_content,
        [Ev.msg "📝 已创建合并保护配置", Ev.cmd config_cmd])
    | some e => (none, [Ev.msg ("⚠️  合并保护设置失败: " ++ e)])

/-- The merge command of `apply_all_changes` (line 333). -/
def merge_cmd : String := "git merge " ++ dd ++ "no-commit " ++ dd ++ "no-ff upstream/main"

/-- The unmerged-path query of `check_conflicts` (line 405). -/
def unmerged_cmd : String := "git diff " ++ dd ++ "name-only " ++ dd ++ "diff-filter=U"

/-- The restore command issued per pattern after a successful merge. -/
def checkout_head_cmd (p : String) : String :=
  "git checkout HEAD " ++ dd ++ " " ++ p

/-- The per-file upstream checkout of `interactive_select` (line 394). -/
def checkout_up_cmd (f : String) : String :=
  "git checkout upstream/main " ++ dd ++ " " ++ f

/-- `UpstreamSync.show_status` (lines 434-437). -/
def show_status_ev : List Ev :=
  [Ev.msg "📋 当前Git状态:", Ev.cmd "git status"]

/-- The banner and file listing `apply_all_changes` prints before
asking for confirmation (lines 319-322). -/
def apply_all_pre (files : List String) : List Ev :=
  [Ev.msg ("⚠️  即将应用 " ++ toString files.length ++ " 个文件的更新"),
   Ev.msg "将要更新的文件:"] ++ files.map (fun f => Ev.msg ("  • " ++ f))

/-- `UpstreamSync.apply_all_changes` (lines 313-351) with the operator's
confirmation input and the merge command's exit code made explicit.  The
exit codes of the restore checkouts and of `git status` are ignored by
the source (`capture=False`, result discarded), so they need no inputs. -/
def apply_all_changes (files : List String) (confirm : String) (merge_code : Int) :
    List Ev :=
  if files.isEmpty then [Ev.msg "⚠️  没有可更新的文件"]
  else
    apply_all_pre files ++
    (if py_lower confirm ≠ "y" then [Ev.msg "操作已取消"]
     else
       [Ev.msg "🔄 正在应用更新...", Ev.cmd merge_cmd] ++
       (if merge_code ≠ 0 then [Ev.msg "❌ 合并失败，可能存在冲突"]
        else
          excluded_patterns.map (fun p => Ev.cmd (checkout_head_cmd (checkout_target p))) ++
          [Ev.msg "✅ 更新已暂存"] ++ show_status_ev))

example : clean_pattern "^setup/" = "setup/" := by decide
example : checkout_target "^setup/" = "setup" := by decide
example : checkout_target "^README\\.md$" = "README.md" := by decide
example : gitattributes_content =
    "# 合并保护配置\n.github/* merge=ours\nSRAFrontend/* merge=ours\nsetup/* merge=ours\nREADME.md merge=ours\npackage.py merge=ours\n.gitignore merge=ours\n.gitattributes merge=ours\n" := by decide

/-- The version-control backend and filesystem as seen by the tool:
`run c` is the (stripped stdout, exit code) pair `run_cmd c` observes,
and `fileExists` models `Path(file).exists()`. -/
structure Env where
  run : String → String × Int
  fileExists : String → Bool

/-- Right-align a numeral to width 2 (the `{i:2d}` format of line 364). -/
def pad2 (s : String) : String :=
  if s.length < 2 then " " ++ s else s

/-- The `file_map` of `interactive_select` (lines 362-365): 1-based
decimal indices paired with the files they select. -/
def file_map (files : List String) : List (String × String) :=
  ((List.range files.length).zip files).map (fun p => (toString (p.1 + 1), p.2))

/-- Processing of one comma-separated token list (lines 376-385): each
token is stripped and looked up; the first invalid token prints an
error, sets `valid = False` and breaks.  Returns (selected files,
valid flag, printed events). -/
def process_tokens (files : List String) : List String → List String × Bool × List Ev
  | [] => ([], true, [])
  | t :: rest =>
    match (file_map files).lookup (strip_ws t) with
    | some f =>
      (f :: (process_tokens files rest).1, (process_tokens files rest).2.1,
       (process_tokens files rest).2.2)
    | none => ([], false, [Ev.msg ("❌ 无效编号: " ++ strip_ws t)])

/-- The comma-separated tokens of a selection input (line 378). -/
def choice_tokens (c : String) : List String := py_split ',' c

/-- Outcome of the selection prompt loop of `interactive_select`. -/
inductive SelOutcome where
  | quit
  | blocked
  | chosen (sel : List String)
deriving DecidableEq

/-- The `while True` prompt loop of `interactive_select` (lines
367-388), consuming the input script until `q`, `a`, or a fully valid
nonempty selection; an exhausted script blocks.  Returns the outcome,
the events printed while prompting, and the remaining script. -/
def select_loop (files : List String) : List String → SelOutcome × List Ev × List String
  | [] => (SelOutcome.blocked, [], [])
  | choice :: rest =>
    if py_lower (strip_ws choice) = "q" then (SelOutcome.quit, [], rest)
    else if py_lower (strip_ws choice) = "a" then (SelOutcome.chosen files, [], rest)
    else if (process_tokens files (choice_tokens (strip_ws choice))).2.1 &&
        !(process_tokens files (choice_tokens (strip_ws choice))).1.isEmpty then
      (SelOutcome.chosen (process_tokens files (choice_tokens (strip_ws choice))).1,
       (process_tokens files (choice_tokens (strip_ws choice))).2.2, rest)
    else
      ((select_loop files rest).1,
       (process_tokens files (choice_tokens (strip_ws choice))).2.2 ++
         (select_loop files rest).2.1,
       (select_loop files rest).2.2)

/-- The file list `interactive_select` prints before prompting. -/
def select_header (files : List String) : List Ev :=
  [Ev.msg ("📁 请选择要更新的文件 (共 " ++ toString files.length ++ " 个):")] ++
  (file_map files).map (fun p => Ev.msg ("  [" ++ pad2 p.1 ++ "] " ++ p.2))

/-- The per-file upstream checkouts and status display performed once a
selection is accepted (lines 391-398). -/
def apply_selected_evs (sel : List String) : List Ev :=
  [Ev.msg "🔄 正在应用选中文件..."] ++
  (sel.map (fun f => [Ev.msg ("  • " ++ f), Ev.cmd (checkout_up_cmd f)])).flatten ++
  [Ev.msg ("✅ 已更新 " ++ toString sel.length ++ " 个文件")] ++ show_status_ev

/-- What `interactive_select` does after its prompt loop resolves:
on an accepted selection the checkouts and status display run; `q`
returns silently; an exhausted script leaves the run blocked. -/
def select_finish (files : List String) (s : SelOutcome × List Ev × List String) :
    List Ev × Option (List String) :=
  (select_header files ++ s.2.1 ++
    (match s.1 with
     | SelOutcome.chosen sel => apply_selected_evs sel
     | _ => []),
   match s.1 with
   | SelOutcome.blocked => none
   | _ => some s.2.2)

/-- `UpstreamSync.interactive_select` (lines 353-398) over an input
script.  Returns the events and the script left over (`none` when the
script ran out at a prompt). -/
def interactive_select (files : List String) (stdin : List String) :
    List Ev × Option (List String) :=
  if files.isEmpty then ([Ev.msg "⚠️  没有可更新的文件"], some stdin)
  else select_finish files (select_loop files stdin)

/-- `UpstreamSync.check_conflicts` (lines 400-432): queries the
unmerged paths; a nonempty result is reported with the fixed
remediation steps and an optional editor launch, an empty one checks
`git status` for a finished conflict resolution. -/
def check_conflicts_run (env : Env) (stdin : List String) :
    List Ev × Option (List String) :=
  let r := env.run unmerged_cmd
  let evs0 := [Ev.msg "🔍 正在检查冲突...", Ev.cmd unmerged_cmd]
  if r.1 ≠ "" then
    let cfiles := parse_diff_output r.1
    let evs := evs0 ++
      [Ev.msg ("⚠️  发现 " ++ toString cfiles.length ++ " 个冲突文件:")] ++
      cfiles.map (fun f => Ev.msg ("  ⚡ " ++ f)) ++
      [Ev.msg "🛠️  解决步骤:",
       Ev.msg "  1. 查看冲突: git diff",
       Ev.msg "  2. 编辑文件，解决冲突标记 (<<<<<<<, =======, >>>>>>>)",
       Ev.msg "  3. 标记为已解决: git add <文件>",
       Ev.msg "  4. 完成合并: git commit"]
    match stdin with
    | [] => (evs, none)
    | e :: rest =>
      if py_lower e = "y" then
        (evs ++ (cfiles.filter env.fileExists).map (fun f => Ev.cmd ("code " ++ f)),
         some rest)
      else (evs, some rest)
  else
    let sr := env.run "git status"
    (evs0 ++ [Ev.msg "✅ 无未解决的冲突", Ev.cmd "git status"] ++
      (if is_sub ("All conflicts fixed".toList) sr.1.toList then
        [Ev.msg "💡 所有冲突已解决，可以提交合并"] else []),
     some stdin)

/-- Lexicographic code-point comparison, the order Python `sorted` uses
on strings. -/
def chars_le : List Char → List Char → Bool
  | [], _ => true
  | _ :: _, [] => false
  | a :: as, b :: bs => if a = b then chars_le as bs else decide (a < b)

/-- String comparison for the displays that use Python `sorted`. -/
def str_le (a b : String) : Bool := chars_le a.toList b.toList

/-- Insert into an ascending list. -/
def insert_sorted (x : String) : List String → List String
  | [] => [x]
  | y :: ys => if str_le x y then x :: y :: ys else y :: insert_sorted x ys

/-- Ascending sort of strings (Python `sorted`). -/
def sort_strs (l : List String) : List String := l.foldr insert_sorted []

/-- Deduplication keeping first occurrences (Python dict key order). -/
def uniq_aux (seen : List String) : List String → List String
  | [] => []
  | x :: xs => if seen.contains x then uniq_aux seen xs else x :: uniq_aux (x :: seen) xs

/-- Deduplicate a string list. -/
def uniq (l : List String) : List String := uniq_aux [] l

/-- The display group of a path in `preview_changes` (lines 258-263):
its first segment, or the sentinel root group for top-level files. -/
def top_group (f : String) : String :=
  let parts := split_on_char '/' f.toList
  match parts with
  | [] => "根目录"
  | p :: _ => if parts.length > 1 then String.mk p else "根目录"

/-- The grouped file listing of `preview_changes` (lines 269-273). -/
def group_msgs (files : List String) : List Ev :=
  (sort_strs (uniq (files.map top_group))).flatMap (fun g =>
    Ev.msg (g ++ "/") ::
      (sort_strs (files.filter (fun f => top_group f = g))).map
        (fun f => Ev.msg ("  • " ++ f)))

/-- `Path(file).suffix` of pathlib: the extension of the final
component, empty for dotfiles and names without an inner dot. -/
def py_suffix (file : String) : String :=
  let comps := (split_on_char '/' file.toList).filter (fun c => c ≠ [])
  match comps.getLast? with
  | none => ""
  | some name =>
    let idxs := (List.range name.length).filter (fun i => name.get? i = some '.')
    match idxs.getLast? with
    | none => ""
    | some i => if 0 < i ∧ i < name.length - 1 then String.mk (name.drop i) else ""

/-- `UpstreamSync.show_summary` (lines 448-468): file count and the
per-extension distribution, sorted by extension. -/
def show_summary_ev (files : List String) : List Ev :=
  if files.isEmpty then []
  else
    let keys := files.map (fun f => if py_suffix f = "" then "无扩展名" else py_suffix f)
    [Ev.msg "📋 更新摘要:", Ev.msg ("📁 文件总数: " ++ toString files.length)] ++
    (if keys.isEmpty then [] else
      [Ev.msg "📊 文件类型分布:"] ++
      (sort_strs (uniq keys)).map
        (fun k => Ev.msg ("  " ++ k ++ ": " ++ toString (keys.count k))))

/-- Added-line count of a diff (lines 298-299). -/
def count_added (out : String) : Nat :=
  ((split_on_char '\n' out.toList).filter (fun l =>
    ['+'].isPrefixOf l && !(['+', '+', '+'].isPrefixOf l))).length

/-- Removed-line count of a diff (lines 300-301). -/
def count_removed (out : String) : Nat :=
  ((split_on_char '\n' out.toList).filter (fun l =>
    ['-'].isPrefixOf l && !(['-', '-', '-'].isPrefixOf l))).length

/-- The per-file display loop of `preview_changes` (lines 281-311):
diff each file, show it with line statistics, and between files read a
continue/quit input. -/
def preview_files (env : Env) (idx total : Nat) :
    List String → List String → List Ev × Option (List String)
  | [], stdin => ([], some stdin)
  | f :: fs, stdin =>
    let dcmd := "git diff HEAD..upstream/main " ++ dd ++ " " ++ f
    let dout := (env.run dcmd).1
    let evs := [Ev.msg ("文件 " ++ toString idx ++ "/" ++ toString total ++ ": " ++ f),
                Ev.cmd dcmd] ++
      (if dout ≠ "" then
        [Ev.msg dout,
         Ev.msg ("📈 变更统计: +" ++ toString (count_added dout) ++ " -" ++
           toString (count_removed dout))]
       else [Ev.msg "(无文本变更或二进制文件)"])
    if idx < total then
      match stdin with
      | [] => (evs, none)
      | c :: rest =>
        if py_lower c = "q" then (evs, some rest)
        else
          let r := preview_files env (idx + 1) total fs rest
          (evs ++ r.1, r.2)
    else (evs, some stdin)

/-- `UpstreamSync.preview_changes` (lines 248-311): grouped listing,
then an optional per-file diff walk.  Read-only: every command issued
is a diff. -/
def preview_run (env : Env) (files : List String) (stdin : List String) :
    List Ev × Option (List String) :=
  if files.isEmpty then ([Ev.msg "⚠️  没有可更新的文件"], some stdin)
  else
    let hdr := [Ev.msg ("📊 共发现 " ++ toString files.length ++ " 个可更新文件")] ++
      group_msgs files
    match stdin with
    | [] => (hdr, none)
    | p :: rest =>
      if py_lower p ≠ "y" then (hdr, some rest)
      else
        let r := preview_files env 1 files.length files rest
        (hdr ++ r.1, r.2)

/-- The fetch command of `fetch_upstream` (line 206). -/
def fetch_cmd : String := "git fetch upstream"

/-- The latest-commit query of `fetch_upstream` (line 210). -/
def log_cmd : String := "git log -1 " ++ dd ++ "oneline upstream/main"

/-- `UpstreamSync.fetch_upstream` (lines 203-219): reports success with
the latest upstream commit (truncated to 60 characters) or failure. -/
def fetch_run (env : Env) : List Ev × Bool :=
  let r := env.run fetch_cmd
  let evs := [Ev.msg "🔄 正在获取上游更新...", Ev.cmd fetch_cmd]
  if r.2 = 0 then
    let lc := (env.run log_cmd).1
    (evs ++ [Ev.cmd log_cmd] ++
      (if lc ≠ "" then
        [Ev.msg "✅ 上游更新获取完成",
         Ev.msg ("   最新提交: " ++ String.mk (lc.toList.take 60))]
       else [Ev.msg "✅ 上游更新获取完成"]), true)
  else (evs ++ [Ev.msg "❌ 获取失败，请检查远程配置"], false)

/-- `apply_all_changes` as dispatched from the menu: the confirmation
is read from the script (no read happens when the list is empty), and
the merge exit code comes from the backend. -/
def apply_all_run (env : Env) (files : List String) (stdin : List String) :
    List Ev × Option (List String) :=
  if files.isEmpty then ([Ev.msg "⚠️  没有可更新的文件"], some stdin)
  else match stdin with
    | [] => (apply_all_pre files, none)
    | confirm :: rest =>
      (apply_all_changes files confirm (env.run merge_cmd).2, some rest)

/-- Loop control after one pass of the `while True` body. -/
inductive Ctl where
  | stop
  | next
deriving DecidableEq

/-- Result of one pass of the main-loop body: emitted events, remaining
input script, and whether the loop continues. -/
structure IterResult where
  evs : List Ev
  rest : List String
  ctl : Ctl
deriving DecidableEq

/-- The hardcoded upstream remote registration (line 485). -/
def remote_add_cmd : String :=
  "git remote add upstream https://github.com/Shasnow/StarRailAssistant.git"

/-- The remote check of the main loop (lines 480-481): `upstream`
occurs as a substring of `git remote -v` output. -/
def has_upstream (env : Env) : Bool :=
  is_sub ("upstream".toList) ((env.run "git remote -v").1.toList)

/-- The diff-paths query of `get_changed_files` (line 223). -/
def diff_cmd : String := "git diff " ++ dd ++ "name-only HEAD..upstream/main"

/-- The excluded-file display of the up-to-date branch (line 501). -/
def excluded_display : String :=
  join_sep ", " (excluded_patterns.map clean_pattern)

/-- The action menu (lines 506-513). -/
def menu_msgs : List Ev :=
  [Ev.msg "🛠️  请选择操作:",
   Ev.msg "  1. 预览所有变更（彩色diff）",
   Ev.msg "  2. 应用所有更新",
   Ev.msg "  3. 交互式选择文件",
   Ev.msg "  4. 检查冲突",
   Ev.msg "  5. 显示状态",
   Ev.msg "  6. 重新获取更新",
   Ev.msg "  0. 退出"]

/-- The goodbye message printed on exit. -/
def bye_msg : Ev := Ev.msg "👋 感谢使用，再见！"

/-- The follow-up hints printed after choices 2 and 3 (lines 536-541). -/
def followup_msgs : List Ev :=
  [Ev.msg "💡 后续步骤:",
   Ev.msg "  1. 解决可能存在的冲突",
   Ev.msg "  2. 提交更改: git commit -m \x27sync: 上游更新\x27",
   Ev.msg "  3. 推送: git push origin main",
   Ev.msg "  4. 在主仓库更新子模块引用"]

/-- Epilogue of a dispatched operation (lines 535-548), given the
operation's events and leftover script `d`: choice 6 continues the loop
at once; otherwise the follow-up hints are printed for choices 2/3 and
the return/exit prompt is read. -/
def dispatch_tail (acc : List Ev) (choice : String)
    (d : List Ev × Option (List String)) : IterResult :=
  match d.2 with
  | none => ⟨acc ++ d.1, [], Ctl.stop⟩
  | some rest2 =>
    if choice = "6" then ⟨acc ++ d.1, rest2, Ctl.next⟩
    else
      match rest2 with
      | [] =>
        ⟨acc ++ d.1 ++ (if choice = "2" ∨ choice = "3" then followup_msgs else []),
         [], Ctl.stop⟩
      | c :: rest3 =>
        if strip_ws c = "0" then
          ⟨acc ++ d.1 ++ (if choice = "2" ∨ choice = "3" then followup_msgs else []) ++
            [bye_msg], rest3, Ctl.stop⟩
        else
          ⟨acc ++ d.1 ++ (if choice = "2" ∨ choice = "3" then followup_msgs else []),
           rest3, Ctl.next⟩

/-- Menu dispatch proper: choice 0 exits at once; otherwise the chosen
operation runs and `dispatch_tail` handles the epilogue. -/
def iter_dispatch (env : Env) (files : List String) (acc : List Ev)
    (choice : String) (rest : List String) : IterResult :=
  if choice = "0" then ⟨acc ++ [bye_msg], rest, Ctl.stop⟩
  else
    dispatch_tail acc choice
      (if choice = "1" then preview_run env files rest
       else if choice = "2" then apply_all_run env files rest
       else if choice = "3" then interactive_select files rest
       else if choice = "4" then check_conflicts_run env rest
       else if choice = "5" then (show_status_ev, some rest)
       else if choice = "6" then ([], some rest)
       else ([Ev.msg "❌ 无效选择，请重试"], some rest))

/-- The change-set derivation, summary/up-to-date report, menu display
and choice read of one loop pass (lines 496-515). -/
def iter_menu (env : Env) (acc : List Ev) (stdin : List String) : IterResult :=
  let files := get_changed_files_r (env.run diff_cmd)
  let acc2 := acc ++ [Ev.cmd diff_cmd] ++
    (if files.isEmpty then
      [Ev.msg "✅ 已经是最新，无需同步", Ev.msg ("排除的文件: " ++ excluded_display)]
     else show_summary_ev files) ++ menu_msgs
  match stdin with
  | [] => ⟨acc2, [], Ctl.stop⟩
  | c :: rest => iter_dispatch env files acc2 (strip_ws c) rest

/-- The fetch step of one loop pass (lines 492-494): a failed fetch
reports and breaks out of the loop. -/
def iter_fetch (env : Env) (acc : List Ev) (stdin : List String) : IterResult :=
  let fr := fetch_run env
  if fr.2 then iter_menu env (acc ++ fr.1) stdin
  else ⟨acc ++ fr.1 ++ [Ev.msg "❌ 无法继续，请检查网络或权限"], [], Ctl.stop⟩

/-- One pass of the `while True` body of `main_loop` (lines 475-548),
starting with the remote-configuration check (lines 479-489). -/
def iteration (env : Env) (stdin : List String) : IterResult :=
  let hdr : List Ev := [Ev.msg "🔄 上游同步工具", Ev.cmd "git remote -v"]
  if has_upstream env then iter_fetch env hdr stdin
  else
    let hdr2 := hdr ++ [Ev.msg "⚠️  未配置 upstream 远程"]
    match stdin with
    | [] => ⟨hdr2, [], Ctl.stop⟩
    | s :: rest =>
      if py_lower s = "y" ∨ py_lower s = "" then
        iter_fetch env (hdr2 ++ [Ev.cmd remote_add_cmd, Ev.msg "✅ 已添加上游远程"]) rest
      else ⟨hdr2 ++ [Ev.msg "请手动运行: git remote add upstream <url>"], rest, Ctl.next⟩

/-- `UpstreamSync.main_loop` (lines 473-548) over an input script, with
fuel bounding the number of loop passes. -/
def main_loop (env : Env) : Nat → List String → List Ev
  | 0, _ => []
  | n + 1, stdin =>
    let r := iteration env stdin
    r.evs ++ (match r.ctl with
      | Ctl.stop => []
      | Ctl.next => main_loop env n r.rest)

/-- A whole session: `UpstreamSync()` (whose constructor runs
`_setup_merge_protection` on the optional existing `.gitattributes`)
followed by `main_loop`. -/
def run_program (fs : Option String) (write_err : Option String) (env : Env)
    (fuel : Nat) (stdin : List String) : List Ev :=
  (setup_merge_protection fs write_err).2 ++ main_loop env fuel stdin

/-- A backend in a healthy state: upstream remote configured, fetch and
merge succeed, and the diff-paths query answers as given. -/
def env_basic (diff_out : String) (diff_code : Int) : Env :=
  { run := fun c =>
      if c = "git remote -v" then
        ("origin\thttps://example/fork (fetch)\nupstream\thttps://example/up (fetch)", 0)
      else if c = fetch_cmd then ("", 0)
      else if c = log_cmd then ("abc1234 some upstream commit", 0)
      else if c = diff_cmd then (diff_out, diff_code)
      else ("", 0),
    fileExists := fun _ => false }

-- scratch checks
example :
    (main_loop (env_basic "src/a.txt\ndocs/b.md" 0) 2 ["5", "", "5", ""]).count
      (Ev.cmd fetch_cmd) = 2 := by decide
example :
    (main_loop (env_basic "src/a.txt\ndocs/b.md" 0) 2 ["5", "", "5", ""]).count
      (Ev.cmd diff_cmd) = 2 := by decide
example :
    main_loop (env_basic "" 1) 1 ["0"] = main_loop (env_basic "" 0) 1 ["0"] := by decide
example :
    Ev.msg "✅ 已经是最新，无需同步" ∈ main_loop (env_basic "" 1) 1 ["0"] := by decide
example :
    Ev.cmd merge_cmd ∈
      run_program none (some "Permission denied") (env_basic "src/a.txt\ndocs/b.md" 0)
        2 ["2", "y", "", "3", "1", ""] := by decide
example :
    Ev.cmd (checkout_up_cmd "src/a.txt") ∈
      run_program none (some "Permission denied") (env_basic "src/a.txt\ndocs/b.md" 0)
        2 ["2", "y", "", "3", "1", ""] := by decide
example :
    ((interactive_select ["f1", "f2", "f3", "f4", "f5"] ["2,4"]).1).filter Ev.isCmd =
      [Ev.cmd (checkout_up_cmd "f2"), Ev.cmd (checkout_up_cmd "f4"), Ev.cmd "git status"] := by
  decide

/-! ### Helper lemmas -/

theorem isPrefixOf_append_self (a b : List Char) : a.isPrefixOf (a ++ b) = true :=
  List.isPrefixOf_iff_prefix.mpr (List.prefix_append a b)

theorem excluded_of_re_match {p s : String} (hp : p ∈ excluded_patterns)
    (h : re_match p s = true) : is_excluded s = true :=
  List.any_eq_true.mpr ⟨p, hp, h⟩

theorem re_match_github_dir (s : String) :
    re_match "^\\.github/" s = (".github/".toList).isPrefixOf s.toList := rfl

theorem re_match_sra_dir (s : String) :
    re_match "^SRAFrontend/" s = ("SRAFrontend/".toList).isPrefixOf s.toList := rfl

theorem re_match_setup_dir (s : String) :
    re_match "^setup/" s = ("setup/".toList).isPrefixOf s.toList := rfl

theorem re_match_readme_eq (p : String) :
    re_match "^README\\.md$" p =
      (p.toList == "README.md".toList || p.toList == "README.md".toList ++ ['\n']) := rfl

theorem toList_append (s t : String) : (s ++ t).toList = s.toList ++ t.toList :=
  String.data_append s t

theorem is_excluded_dir_extension {d pre : String} (hd : d ∈ excluded_patterns)
    (h : ∀ s : String, re_match d s = pre.toList.isPrefixOf s.toList)
    (rest : String) : is_excluded (pre ++ rest) = true := by
  apply excluded_of_re_match hd
  rw [h, toList_append]
  exact isPrefixOf_append_self _ _

/-! ### Claim C1 -/

/-- Claim C1: `get_changed_files` returns no path for which `is_excluded`
is true, and it equals the backend's reported path list filtered by
non-exclusion, so every non-excluded path appears, in the backend's
reported order. -/
theorem resolve_filters_excluded (output : String) :
    (∀ f ∈ get_changed_files output, is_excluded f = false) ∧
    get_changed_files output =
      (parse_diff_output output).filter (fun f => !(is_excluded f)) := by
  constructor
  · intro f hf
    unfold get_changed_files at hf
    split at hf
    · simp at hf
    · have := List.of_mem_filter hf
      simpa using this
  · unfold get_changed_files
    split
    · rename_i h
      subst h
      rfl
    · rfl

/-- Witness for C1 at a concrete backend answer. -/
theorem resolve_filters_excluded_witness :
    is_excluded "src/a.txt" = false ∧
    get_changed_files "src/a.txt\nsetup/x.txt" = ["src/a.txt"] :=
  ⟨(resolve_filters_excluded "src/a.txt\nsetup/x.txt").1 "src/a.txt" (by decide),
   by decide⟩

/-! ### Claim C2 -/

/-- Counterexample for C2 as stated: because Python's `$` also matches
just before a newline that ends the string, the exclusion matcher
accepts the string `README.md` followed by a newline, a path that is
not the exact filename but merely starts with it. -/
theorem filename_rule_newline_cex :
    is_excluded ("README.md" ++ "\n") = true ∧
    ("README.md" ++ "\n") ≠ "README.md" ∧
    ("README.md".toList).isPrefixOf (("README.md" ++ "\n").toList) = true := by
  decide

/-- Claim C2 (amended): matching is exact-segment anchored: every path
beginning with an excluded directory prefix is excluded; a path that
shares only a character prefix without the segment boundary
(`setup2/x.txt`) is not; and a filename rule matches exactly its
filename, except that — per Python `$` semantics — the filename
followed by a single trailing newline also matches. -/
theorem exclusion_segment_matching :
    (∀ rest : String, is_excluded ("setup/" ++ rest) = true) ∧
    (∀ rest : String, is_excluded (".github/" ++ rest) = true) ∧
    (∀ rest : String, is_excluded ("SRAFrontend/" ++ rest) = true) ∧
    is_excluded "setup2/x.txt" = false ∧
    (∀ p : String, re_match "^README\\.md$" p = true ↔
      p = "README.md" ∨ p = "README.md" ++ "\n") := by
  refine ⟨?_, ?_, ?_, by decide, ?_⟩
  · exact is_excluded_dir_extension (by decide) re_match_setup_dir
  · exact is_excluded_dir_extension (by decide) re_match_github_dir
  · exact is_excluded_dir_extension (by decide) re_match_sra_dir
  · intro p
    rw [re_match_readme_eq]
    have h1 : p.toList = p.data := rfl
    have h2 : ("README.md" ++ "\n").data = "README.md".data ++ ['\n'] := rfl
    simp [Bool.or_eq_true, beq_iff_eq, String.ext_iff, h1, h2]

/-- Witness for C2 (amended) at concrete paths. -/
theorem exclusion_segment_matching_witness :
    is_excluded "setup/x.txt" = true ∧
    re_match "^README\\.md$" "README.md" = true :=
  ⟨exclusion_segment_matching.1 "x.txt",
   (exclusion_segment_matching.2.2.2.2 "README.md").mpr (Or.inl rfl)⟩

/-! ### Claim C3 -/

/-- Counterexample for C3 as stated: for the directory pattern
`^setup/`, the checkout after a successful merge is scoped to `setup`
(trailing slash removed, line 344), not to the anchor-stripped,
dot-unescaped pattern `setup/` that the claim describes. -/
theorem apply_all_checkout_path_cex :
    "^setup/" ∈ excluded_patterns ∧
    clean_pattern "^setup/" = "setup/" ∧
    Ev.cmd (checkout_head_cmd "setup/") ∉ apply_all_changes ["a.txt"] "y" 0 ∧
    Ev.cmd (checkout_head_cmd "setup") ∈ apply_all_changes ["a.txt"] "y" 0 := by
  decide

/-- Claim C3 (amended): when the merge exits 0, apply-all issues, for
every exclusion pattern, a checkout of the local HEAD version scoped to
that pattern's path — the pattern with anchors stripped, escaped dots
unescaped, and any trailing slash removed for directory patterns. -/
theorem apply_all_restores_excluded (files : List String) (confirm : String)
    (hne : files ≠ []) (hy : py_lower confirm = "y") :
    ∀ p ∈ excluded_patterns,
      Ev.cmd (checkout_head_cmd (checkout_target p)) ∈
        apply_all_changes files confirm 0 := by
  intro p hp
  have h1 : files.isEmpty = false := by
    cases files with
    | nil => exact absurd rfl hne
    | cons a l => rfl
  unfold apply_all_changes
  rw [if_neg (by simp [h1]), if_neg (by simp [hy]), if_neg (by norm_num)]
  exact List.mem_append_right _ (List.mem_append_right _
    (List.mem_append_left _ (List.mem_append_left _ (List.mem_map_of_mem _ hp))))

/-- Witness for C3 (amended): the `^setup/` pattern is restored via
`git checkout HEAD -- setup`. -/
theorem apply_all_restores_excluded_witness :
    Ev.cmd (checkout_head_cmd "setup") ∈ apply_all_changes ["a.txt"] "y" 0 :=
  apply_all_restores_excluded ["a.txt"] "y" (by decide) (by decide) "^setup/" (by decide)

/-! ### Claim C4 -/

/-- Claim C4: merge-protection setup is idempotent — an existing
`.gitattributes` is never overwritten, so a second run leaves the
configuration byte-identical to the first, and the content written on
first run is the fixed deterministic projection of the pattern list. -/
theorem protection_setup_idempotent :
    (∀ (c : String) (werr : Option String),
      (setup_merge_protection (some c) werr).1 = some c) ∧
    (∀ fs : Option String,
      (setup_merge_protection ((setup_merge_protection fs none).1) none).1 =
        (setup_merge_protection fs none).1) ∧
    (setup_merge_protection none none).1 = some gitattributes_content ∧
    gitattributes_content =
      "# 合并保护配置\n.github/* merge=ours\nSRAFrontend/* merge=ours\nsetup/* merge=ours\nREADME.md merge=ours\npackage.py merge=ours\n.gitignore merge=ours\n.gitattributes merge=ours\n" := by
  refine ⟨fun c werr => rfl, fun fs => ?_, rfl, rfl⟩
  cases fs <;> rfl

/-! ### Claim C5 -/

/-- Counterexample for C5 as stated: in a session whose protection
setup failed (the `.gitattributes` write raised, leaving no
configuration), apply-all still performs its merge and apply-selected
still performs its upstream checkout — nothing blocks them. -/
theorem protection_failure_no_block_cex :
    Ev.msg "⚠️  合并保护设置失败: Permission denied" ∈
      run_program none (some "Permission denied") (env_basic "src/a.txt\ndocs/b.md" 0)
        2 ["2", "y", "", "3", "1", ""] ∧
    Ev.cmd merge_cmd ∈
      run_program none (some "Permission denied") (env_basic "src/a.txt\ndocs/b.md" 0)
        2 ["2", "y", "", "3", "1", ""] ∧
    Ev.cmd (checkout_up_cmd "src/a.txt") ∈
      run_program none (some "Permission denied") (env_basic "src/a.txt\ndocs/b.md" 0)
        2 ["2", "y", "", "3", "1", ""] := by
  decide

/-- Claim C5 (amended): a protection-setup failure is only reported as
a warning; the rest of the session is independent of the setup outcome,
and a confirmed apply-all issues its merge regardless — protection
success is not a precondition of any operation. -/
theorem protection_not_precondition :
    (∀ (fs fs₂ write_err write_err₂ : Option String) (env : Env) (fuel : Nat)
      (stdin : List String),
      run_program fs write_err env fuel stdin =
        (setup_merge_protection fs write_err).2 ++
          (run_program fs₂ write_err₂ env fuel stdin).drop
            (setup_merge_protection fs₂ write_err₂).2.length) ∧
    (∀ (files : List String) (confirm : String) (code : Int),
      files ≠ [] → py_lower confirm = "y" →
      Ev.cmd merge_cmd ∈ apply_all_changes files confirm code) := by
  constructor
  · intro fs fs₂ werr werr₂ env fuel stdin
    unfold run_program
    rw [List.drop_left]
  · intro files confirm code hne hy
    have h1 : files.isEmpty = false := by
      cases files with
      | nil => exact absurd rfl hne
      | cons a l => rfl
    simp only [apply_all_changes, h1, Bool.false_eq_true, if_false, hy]
    by_cases hc : code ≠ 0 <;> simp [hc]

/-- Witness for C5 (amended): the merge command is issued even when the
merge later fails, in a session following a failed setup. -/
theorem protection_not_precondition_witness :
    Ev.cmd merge_cmd ∈ apply_all_changes ["a.txt"] "y" 1 :=
  protection_not_precondition.2 ["a.txt"] "y" 1 (by decide) (by decide)

/-! ### Claim C6 -/

/-- Counterexample for C6 as stated: on a failing merge, apply-all
reports the failure and returns; it never issues the unmerged-path
query that the conflict-checking state performs. -/
theorem merge_failure_no_conflict_query_cex :
    Ev.cmd merge_cmd ∈ apply_all_changes ["a.txt"] "y" 1 ∧
    Ev.msg "❌ 合并失败，可能存在冲突" ∈ apply_all_changes ["a.txt"] "y" 1 ∧
    Ev.cmd unmerged_cmd ∉ apply_all_changes ["a.txt"] "y" 1 := by
  decide

/-- Claim C6 (amended): when the merge exits non-zero, apply-all
reports "merge failed, possibly conflicts" and stops there — no
unmerged-path query, no restore checkouts; the conflict check is a
separate menu option the operator must invoke. -/
theorem merge_failure_reports_and_returns (files : List String) (confirm : String)
    (code : Int) (hne : files ≠ []) (hy : py_lower confirm = "y") (hc : code ≠ 0) :
    apply_all_changes files confirm code =
      apply_all_pre files ++
        [Ev.msg "🔄 正在应用更新...", Ev.cmd merge_cmd,
         Ev.msg "❌ 合并失败，可能存在冲突"] := by
  have h1 : files.isEmpty = false := by
    cases files with
    | nil => exact absurd rfl hne
    | cons a l => rfl
  simp [apply_all_changes, h1, hy, hc]

/-- Witness for C6 (amended) at a concrete failing merge. -/
theorem merge_failure_reports_and_returns_witness :
    apply_all_changes ["a.txt"] "y" 1 =
      apply_all_pre ["a.txt"] ++
        [Ev.msg "🔄 正在应用更新...", Ev.cmd merge_cmd,
         Ev.msg "❌ 合并失败，可能存在冲突"] :=
  merge_failure_reports_and_returns ["a.txt"] "y" 1 (by decide) (by decide) (by decide)

/-! ### Main-loop helper lemmas -/

theorem mem_dispatch_tail {x : Ev} (acc : List Ev) (choice : String)
    (d : List Ev × Option (List String)) (hx : x ∈ acc) :
    x ∈ (dispatch_tail acc choice d).evs := by
  unfold dispatch_tail
  repeat' split
  all_goals simp [hx]

theorem mem_iter_dispatch {x : Ev} (env : Env) (files : List String) (acc : List Ev)
    (choice : String) (rest : List String) (hx : x ∈ acc) :
    x ∈ (iter_dispatch env files acc choice rest).evs := by
  unfold iter_dispatch
  split
  · simp [hx]
  · exact mem_dispatch_tail _ _ _ hx

theorem mem_iter_menu {x : Ev} (env : Env) (acc : List Ev) (stdin : List String)
    (hx : x ∈ acc) : x ∈ (iter_menu env acc stdin).evs := by
  cases stdin with
  | nil => simp [iter_menu, hx]
  | cons c rest =>
    simp only [iter_menu]
    exact mem_iter_dispatch _ _ _ _ _ (by simp [hx])

theorem diff_cmd_mem_iter_menu (env : Env) (acc : List Ev) (stdin : List String) :
    Ev.cmd diff_cmd ∈ (iter_menu env acc stdin).evs := by
  cases stdin with
  | nil => simp [iter_menu]
  | cons c rest =>
    simp only [iter_menu]
    exact mem_iter_dispatch _ _ _ _ _ (by simp)

theorem fetch_run_ok (env : Env) (h : (env.run fetch_cmd).2 = 0) :
    (fetch_run env).2 = true ∧ Ev.cmd fetch_cmd ∈ (fetch_run env).1 := by
  unfold fetch_run
  simp only [h, if_true]
  constructor
  · trivial
  · split <;> simp

theorem fetch_run_fail (env : Env) (h : ¬(env.run fetch_cmd).2 = 0) :
    fetch_run env =
      ([Ev.msg "🔄 正在获取上游更新...", Ev.cmd fetch_cmd,
        Ev.msg "❌ 获取失败，请检查远程配置"], false) := by
  simp [fetch_run, h]

theorem iter_fetch_ok (env : Env) (acc : List Ev) (stdin : List String)
    (h : (env.run fetch_cmd).2 = 0) :
    iter_fetch env acc stdin = iter_menu env (acc ++ (fetch_run env).1) stdin := by
  unfold iter_fetch
  rw [if_pos (fetch_run_ok env h).1]

theorem iter_fetch_fail (env : Env) (acc : List Ev) (stdin : List String)
    (h : ¬(env.run fetch_cmd).2 = 0) :
    iter_fetch env acc stdin =
      ⟨acc ++ (fetch_run env).1 ++ [Ev.msg "❌ 无法继续，请检查网络或权限"],
       [], Ctl.stop⟩ := by
  unfold iter_fetch
  rw [if_neg]
  rw [fetch_run_fail env h]
  simp

theorem iteration_has_upstream (env : Env) (stdin : List String)
    (h : has_upstream env = true) :
    iteration env stdin =
      iter_fetch env [Ev.msg "🔄 上游同步工具", Ev.cmd "git remote -v"] stdin := by
  simp [iteration, h]

theorem iter_dispatch_six (env : Env) (files : List String) (acc : List Ev)
    (rest : List String) :
    iter_dispatch env files acc "6" rest = ⟨acc, rest, Ctl.next⟩ := by
  simp [iter_dispatch, dispatch_tail]

/-! ### Claim C7 -/

/-- Counterexample for C7 as stated: two passes through the menu, both
choosing the read-only status operation (5) and never requesting
re-fetch (6), nevertheless fetch the upstream and re-derive the
ChangeSet twice — the loop re-fetches on every iteration. -/
theorem loop_refetches_cex :
    "6" ∉ (["5", "", "5", ""] : List String) ∧
    Ev.cmd "git status" ∈
      main_loop (env_basic "src/a.txt\ndocs/b.md" 0) 2 ["5", "", "5", ""] ∧
    (main_loop (env_basic "src/a.txt\ndocs/b.md" 0) 2 ["5", "", "5", ""]).count
      (Ev.cmd fetch_cmd) = 2 ∧
    (main_loop (env_basic "src/a.txt\ndocs/b.md" 0) 2 ["5", "", "5", ""]).count
      (Ev.cmd diff_cmd) = 2 := by
  decide

/-- Claim C7 (amended): after any operation the loop starts a fresh
pass, and every pass with a configured upstream re-runs the fetch and,
when the fetch succeeds, re-derives the ChangeSet from a fresh diff
before showing the menu; menu option 6 differs only in skipping the
post-operation prompt, continuing the loop at once. -/
theorem iteration_always_refetches (env : Env) (stdin : List String)
    (hrem : has_upstream env = true) :
    Ev.cmd fetch_cmd ∈ (iteration env stdin).evs ∧
    ((env.run fetch_cmd).2 = 0 → Ev.cmd diff_cmd ∈ (iteration env stdin).evs) ∧
    (∀ rest, stdin = "6" :: rest → (env.run fetch_cmd).2 = 0 →
      (iteration env stdin).ctl = Ctl.next ∧ (iteration env stdin).rest = rest) := by
  rw [iteration_has_upstream env stdin hrem]
  refine ⟨?_, ?_, ?_⟩
  · by_cases h : (env.run fetch_cmd).2 = 0
    · rw [iter_fetch_ok env _ stdin h]
      exact mem_iter_menu _ _ _ (by simp [(fetch_run_ok env h).2])
    · rw [iter_fetch_fail env _ stdin h, fetch_run_fail env h]
      simp
  · intro h
    rw [iter_fetch_ok env _ stdin h]
    exact diff_cmd_mem_iter_menu _ _ _
  · intro rest hs h
    subst hs
    rw [iter_fetch_ok env _ _ h]
    have h6 : strip_ws "6" = "6" := rfl
    simp [iter_menu, h6, iter_dispatch_six]

/-- Witness for C7 (amended) on a healthy backend with choice 6. -/
theorem iteration_always_refetches_witness :
    Ev.cmd fetch_cmd ∈ (iteration (env_basic "" 0) ["6"]).evs ∧
    (iteration (env_basic "" 0) ["6"]).ctl = Ctl.next :=
  ⟨(iteration_always_refetches (env_basic "" 0) ["6"] (by decide)).1,
   ((iteration_always_refetches (env_basic "" 0) ["6"] (by decide)).2.2
     [] rfl (by decide)).1⟩

/-! ### Claim C9 -/

/-- A backend whose fetch fails. -/
def env_fetchfail : Env :=
  { run := fun c =>
      if c = "git remote -v" then ("upstream\thttps://example/up (fetch)", 0)
      else if c = fetch_cmd then ("", 1)
      else ("", 0),
    fileExists := fun _ => false }

/-- Counterexample for C9 as stated: the diff-paths query's exit code
is discarded, so a run in which the query fails (exit 1, empty output)
is event-for-event identical to a run in which it succeeds with no
divergence, including the "already up to date" report. -/
theorem diff_failure_uptodate_cex :
    (env_basic "" 1).run diff_cmd = ("", 1) ∧
    main_loop (env_basic "" 1) 1 ["0"] = main_loop (env_basic "" 0) 1 ["0"] ∧
    Ev.msg "✅ 已经是最新，无需同步" ∈ main_loop (env_basic "" 1) 1 ["0"] := by
  decide

/-- Claim C9 (amended): fetch failures are reported and end the loop,
and merge failures are reported inline; the diff-paths query, however,
ignores its exit code entirely, so a failing query is handled like a
successful one with no divergence. -/
theorem failures_reported_except_diff :
    (∀ (out : String) (c1 c2 : Int),
      get_changed_files_r (out, c1) = get_changed_files_r (out, c2)) ∧
    (∀ (env : Env) (stdin : List String), has_upstream env = true →
      (env.run fetch_cmd).2 ≠ 0 →
      (iteration env stdin).ctl = Ctl.stop ∧
      Ev.msg "❌ 获取失败，请检查远程配置" ∈ (iteration env stdin).evs ∧
      Ev.msg "❌ 无法继续，请检查网络或权限" ∈ (iteration env stdin).evs) ∧
    (∀ (files : List String) (confirm : String) (code : Int),
      files ≠ [] → py_lower confirm = "y" → code ≠ 0 →
      Ev.msg "❌ 合并失败，可能存在冲突" ∈ apply_all_changes files confirm code) := by
  refine ⟨fun out c1 c2 => rfl, ?_, ?_⟩
  · intro env stdin hrem hf
    rw [iteration_has_upstream env stdin hrem, iter_fetch_fail env _ stdin hf,
      fetch_run_fail env hf]
    exact ⟨rfl, by simp, by simp⟩
  · intro files confirm code hne hy hc
    have h1 : files.isEmpty = false := by
      cases files with
      | nil => exact absurd rfl hne
      | cons a l => rfl
    simp [apply_all_changes, h1, hy, hc]

/-- Witness for C9 (amended) on concrete failing backends. -/
theorem failures_reported_except_diff_witness :
    (iteration env_fetchfail []).ctl = Ctl.stop ∧
    Ev.msg "❌ 合并失败，可能存在冲突" ∈ apply_all_changes ["a.txt"] "y" 1 :=
  ⟨(failures_reported_except_diff.2.1 env_fetchfail [] (by decide) (by decide)).1,
   failures_reported_except_diff.2.2 ["a.txt"] "y" 1 (by decide) (by decide)
     (by decide)⟩

/-! ### Claim C8 -/

/-- Claim C8: selecting `2,4` from a five-file ChangeSet issues exactly
the upstream checkouts of the second and fourth file — the only other
command in the trace is the read-only `git status` display — so the
other three files receive no mutation. -/
theorem apply_selected_exact (f1 f2 f3 f4 f5 : String) :
    ((interactive_select [f1, f2, f3, f4, f5] ["2,4"]).1).filter Ev.isCmd =
      [Ev.cmd (checkout_up_cmd f2), Ev.cmd (checkout_up_cmd f4),
       Ev.cmd "git status"] := by
  with_unfolding_all rfl

/-! ### Claim C10 -/

theorem process_tokens_no_cmd (files : List String) :
    ∀ ts, ∀ e ∈ (process_tokens files ts).2.2, e.isCmd = false := by
  intro ts
  induction ts with
  | nil => intro e he; simp [process_tokens] at he
  | cons t rest ih =>
    intro e he
    unfold process_tokens at he
    cases hl : (file_map files).lookup (strip_ws t) with
    | none =>
      rw [hl] at he
      simp at he
      subst he
      rfl
    | some f =>
      rw [hl] at he
      exact ih e he

theorem select_loop_no_cmd (files : List String) :
    ∀ inputs, ∀ e ∈ (select_loop files inputs).2.1, e.isCmd = false := by
  intro inputs
  induction inputs with
  | nil => intro e he; simp [select_loop] at he
  | cons c rest ih =>
    intro e he
    unfold select_loop at he
    split_ifs at he with h1 h2 h3
    · simp at he
    · simp at he
    · exact process_tokens_no_cmd files _ e he
    · rcases List.mem_append.mp he with h | h
      · exact process_tokens_no_cmd files _ e h
      · exact ih e h

theorem filter_isCmd_nil_of_all {l : List Ev} (h : ∀ e ∈ l, e.isCmd = false) :
    l.filter Ev.isCmd = [] :=
  List.filter_eq_nil_iff.mpr (fun a ha => by simp [h a ha])

theorem select_header_no_cmd (files : List String) :
    ∀ e ∈ select_header files, e.isCmd = false := by
  intro e he
  unfold select_header at he
  rcases List.mem_append.mp he with h | h
  · simp at h
    subst h
    rfl
  · rcases List.mem_map.mp h with ⟨p, _, rfl⟩
    rfl

/-- Claim C10: selection parsing is atomic — the prompt loop itself
never issues a command; when the script ends unaccepted (or the user
quits) no checkout at all is issued; and a choice with any invalid
token (or an empty selection) contributes only its error report and
re-prompts on the remaining script. -/
theorem selection_atomic (files inputs : List String) :
    (∀ e ∈ (select_loop files inputs).2.1, e.isCmd = false) ∧
    ((select_loop files inputs).1 = SelOutcome.blocked ∨
      (select_loop files inputs).1 = SelOutcome.quit →
      ((interactive_select files inputs).1).filter Ev.isCmd = []) ∧
    (∀ choice rest,
      py_lower (strip_ws choice) ≠ "q" →
      py_lower (strip_ws choice) ≠ "a" →
      ((process_tokens files (choice_tokens (strip_ws choice))).2.1 = false ∨
        (process_tokens files (choice_tokens (strip_ws choice))).1 = []) →
      select_loop files (choice :: rest) =
        ((select_loop files rest).1,
         (process_tokens files (choice_tokens (strip_ws choice))).2.2 ++
           (select_loop files rest).2.1,
         (select_loop files rest).2.2)) := by
  refine ⟨select_loop_no_cmd files inputs, ?_, ?_⟩
  · intro h
    unfold interactive_select
    split
    · rfl
    · have hfin : (select_finish files (select_loop files inputs)).1 =
          select_header files ++ (select_loop files inputs).2.1 := by
        rcases h with h | h <;> simp [select_finish, h]
      rw [hfin, List.filter_append,
        filter_isCmd_nil_of_all (select_header_no_cmd files),
        filter_isCmd_nil_of_all (select_loop_no_cmd files inputs)]
      rfl
  · intro choice rest hq ha hinv
    have hcond : ¬(((process_tokens files (choice_tokens (strip_ws choice))).2.1 &&
        !(process_tokens files (choice_tokens (strip_ws choice))).1.isEmpty) = true) := by
      rcases hinv with h | h <;> simp [h]
    have hunf : select_loop files (choice :: rest) =
        (if py_lower (strip_ws choice) = "q" then (SelOutcome.quit, [], rest)
         else if py_lower (strip_ws choice) = "a" then (SelOutcome.chosen files, [], rest)
         else if ((process_tokens files (choice_tokens (strip_ws choice))).2.1 &&
             !(process_tokens files (choice_tokens (strip_ws choice))).1.isEmpty) then
           (SelOutcome.chosen (process_tokens files (choice_tokens (strip_ws choice))).1,
            (process_tokens files (choice_tokens (strip_ws choice))).2.2, rest)
         else
           ((select_loop files rest).1,
            (process_tokens files (choice_tokens (strip_ws choice))).2.2 ++
              (select_loop files rest).2.1,
            (select_loop files rest).2.2)) := rfl
    rw [hunf, if_neg hq, if_neg ha, if_neg hcond]

/-- Witness for C10: an invalid entry issues nothing, and re-prompts. -/
theorem selection_atomic_witness :
    ((interactive_select ["a.txt"] ["7"]).1).filter Ev.isCmd = [] ∧
    select_loop ["a.txt"] ["7", "1"] =
      ((select_loop ["a.txt"] ["1"]).1,
       (process_tokens ["a.txt"] (choice_tokens (strip_ws "7"))).2.2 ++
         (select_loop ["a.txt"] ["1"]).2.1,
       (select_loop ["a.txt"] ["1"]).2.2) :=
  ⟨(selection_atomic ["a.txt"] ["7"]).2.1 (Or.inl (by decide)),
   (selection_atomic ["a.txt"] ["7", "1"]).2.2 "7" ["1"] (by decide) (by decide)
     (Or.inl (by decide))⟩

end SyncUpstream
